import Mathlib

/-!
Verification of the chat frontend of the financial-data RAG assistant.

The client logic lives in `src/hooks/useChat.ts` (the `useChat` hook with
`sendMessage` and `clearChat`), the wire types in `src/types/chat.ts`, and the
source-citation rendering in `src/components/ChatMessage.tsx`.  The backend
(FastAPI session store) is documented by the repository's README; where a claim
depends on backend behaviour that is not part of the sources, the definition is
modelled from the spec and marked as such.

React state (`useState` cells `messages`, `isLoading`, `sessionId`, `error`) is
embedded as an explicit record `ChatState`; `sendMessage` becomes a state
transition that also returns the JSON request body it posts (or `none` when the
early-return guard fires).  The nondeterministic inputs of the real code —
`crypto.randomUUID()` for message ids, `new Date()` for timestamps, and the
outcome of the `fetch` call — are passed in as parameters.
-/

namespace RagChat

/-- `Source` from `src/types/chat.ts`: `{ file: string; row_index: number }`. -/
structure Source where
  file : String
  row_index : Nat
deriving DecidableEq, Repr

/-- The `role` field of a `Message` (`'user' | 'assistant'`). -/
inductive Role where
  | user
  | assistant
deriving DecidableEq, Repr

/-- `Message` from `src/types/chat.ts`.  The `Date` timestamp is embedded as a
`Nat` tick; `sources?` is an `Option`. -/
structure Message where
  id : String
  role : Role
  content : String
  sources : Option (List Source) := none
  timestamp : Nat
deriving DecidableEq, Repr

/-- `ChatResponse` from `src/types/chat.ts`:
`{ session_id: string; answer: string; sources: Source[] }`. -/
structure ChatResponse where
  session_id : String
  answer : String
  sources : List Source
deriving DecidableEq, Repr

/-- A JSON value, as far as the request bodies built by the hook need:
`JSON.stringify` serialises the object literal in `sendMessage`, whose field
values are `null`, strings, or the number `top_k`. -/
inductive Json where
  | null : Json
  | str : String → Json
  | num : Nat → Json
deriving DecidableEq, Repr

/-- Serialisation of a `string | null` field value, as `JSON.stringify` does it:
`null` is emitted as JSON `null`, not omitted. -/
def jsonOfOptStr : Option String → Json
  | none => Json.null
  | some s => Json.str s

/-- The React state cells of `useChat` (`useState` in `src/hooks/useChat.ts`). -/
structure ChatState where
  messages : List Message
  isLoading : Bool
  sessionId : Option String
  error : Option String
deriving DecidableEq, Repr

/-- The initial hook state: `useState<Message[]>([])`, `useState(false)`,
`useState<string | null>(null)`, `useState<string | null>(null)`. -/
def initialChatState : ChatState :=
  { messages := [], isLoading := false, sessionId := none, error := none }

/-- `const API_URL = 'http://localhost:8000'`. -/
def API_URL : String := "http://localhost:8000"

/-- Outcome of the `await fetch(...)` in `sendMessage`: the promise resolves
with an ok response whose JSON parses as a `ChatResponse`; or it resolves with
a non-ok status (the code then throws `Server error: ${status}`); or it rejects
(`msg = some m` when the thrown value is an `Error` with message `m`, `none`
when it is not an `Error`). -/
inductive FetchOutcome where
  | success (resp : ChatResponse)
  | httpError (status : Nat)
  | networkError (msg : Option String)
deriving DecidableEq, Repr

/-- Whether the outcome takes `sendMessage` into its `catch` block. -/
def FetchOutcome.isFailure : FetchOutcome → Bool
  | .success _ => false
  | .httpError _ => true
  | .networkError _ => true

/-- The `errorMessage` computed in the `catch` block:
`err instanceof Error ? err.message : 'Failed to send message'`, where a non-ok
response threw `new Error("Server error: " + status)` beforehand. -/
def errorMessageOf : FetchOutcome → String
  | .success _ => ""
  | .httpError status => "Server error: " ++ toString status
  | .networkError (some m) => m
  | .networkError none => "Failed to send message"

/-- JavaScript `String.prototype.trim`: removes leading and trailing
whitespace.  Embedded structurally over the character list so that it computes
by kernel reduction. -/
def jsTrim (s : String) : String :=
  ⟨((s.data.dropWhile Char.isWhitespace).reverse.dropWhile Char.isWhitespace).reverse⟩

/-- The JSON body of the POST to `/chat` built in `sendMessage`:
`JSON.stringify({ session_id: sessionId, message: content.trim(), top_k: topK })`.
Note `sessionId` is `string | null`, so the first request carries
`"session_id": null` — `JSON.stringify` does not drop `null` fields. -/
def buildRequestBody (sessionId : Option String) (message : String) (topK : Nat) :
    List (String × Json) :=
  [("session_id", jsonOfOptStr sessionId),
   ("message", Json.str message),
   ("top_k", Json.num topK)]

/-- `sendMessage` from `src/hooks/useChat.ts`, as a state transition.
`uidU`/`uidA` stand for the two `crypto.randomUUID()` draws, `tsU`/`tsA` for
the two `new Date()` readings, `outcome` for the result of the network call.
Returns the new state and the request body posted (`none` when the
`if (!content.trim()) return;` guard fires).  `topK` defaults to `5` exactly as
the TypeScript parameter default `topK: number = 5` does.  The `try/catch`
structure is embedded by the `match` on `outcome`; the `finally` block's
`setIsLoading(false)` appears on every branch. -/
def sendMessage (st : ChatState) (content : String) (uidU uidA : String)
    (tsU tsA : Nat) (outcome : FetchOutcome) (topK : Nat := 5) :
    ChatState × Option (List (String × Json)) :=
  if jsTrim content = "" then
    (st, none)
  else
    let userMessage : Message :=
      { id := uidU, role := .user, content := jsTrim content, timestamp := tsU }
    let st1 : ChatState :=
      { st with messages := st.messages ++ [userMessage],
                isLoading := true, error := none }
    let body := buildRequestBody st.sessionId (jsTrim content) topK
    match outcome with
    | .success data =>
      let assistantMessage : Message :=
        { id := uidA, role := .assistant, content := data.answer,
          sources := some data.sources, timestamp := tsA }
      ({ st1 with sessionId := some data.session_id,
                  messages := st1.messages ++ [assistantMessage],
                  isLoading := false },
       some body)
    | .httpError status =>
      let errorMessage := errorMessageOf (.httpError status)
      let errorResponse : Message :=
        { id := uidA, role := .assistant,
          content := "⚠️ " ++ errorMessage
            ++ ". Make sure the backend is running at " ++ API_URL,
          timestamp := tsA }
      ({ st1 with error := some errorMessage,
                  messages := st1.messages ++ [errorResponse],
                  isLoading := false },
       some body)
    | .networkError m =>
      let errorMessage := errorMessageOf (.networkError m)
      let errorResponse : Message :=
        { id := uidA, role := .assistant,
          content := "⚠️ " ++ errorMessage
            ++ ". Make sure the backend is running at " ++ API_URL,
          timestamp := tsA }
      ({ st1 with error := some errorMessage,
                  messages := st1.messages ++ [errorResponse],
                  isLoading := false },
       some body)

/-- `clearChat` from `src/hooks/useChat.ts`: empties the message list and nulls
the session id and the error.  (`isLoading` is not touched.) -/
def clearChat (st : ChatState) : ChatState :=
  { st with messages := [], sessionId := none, error := none }

/-- Whether `pat` occurs at the head of `s` (character lists). -/
def leadsWith : List Char → List Char → Bool
  | [], _ => true
  | _ :: _, [] => false
  | p :: ps, c :: cs => p == c && leadsWith ps cs

/-- Removes the first occurrence of `pat` from `s` (both as character lists):
JavaScript `String.prototype.replace` with a string pattern replaces only the
first occurrence. -/
def removeFirstSub : List Char → List Char → List Char
  | [], _ => []
  | c :: rest, pat =>
    if leadsWith pat (c :: rest) then (c :: rest).drop pat.length
    else c :: removeFirstSub rest pat

/-- `source.file.replace('.csv', '')` from `SourceBadge` in
`src/components/ChatMessage.tsx`. -/
def stripCsvOnce (s : String) : String :=
  ⟨removeFirstSub s.data ".csv".data⟩

/-- What `SourceBadge` displays for one source: the file name with the first
`.csv` removed, and the row index (shown as `row {row_index}`). -/
def renderBadge (s : Source) : String × Nat :=
  (stripCsvOnce s.file, s.row_index)

/-- The rendered citation list: `message.sources.map((source, idx) => <SourceBadge ...>)`
in `ChatMessage` renders one badge per source, in list order. -/
def renderSources (sources : List Source) : List (String × Nat) :=
  sources.map renderBadge

/-- Default `TOP_K` from the repository README's configuration table
(`TOP_K | 5 | Default retrieval count`). -/
def TOP_K : Nat := 5

/-- Default `MAX_HISTORY` from the repository README's configuration table
(`MAX_HISTORY | 10 | Max chat turns to keep`). -/
def MAX_HISTORY : Nat := 10

/-- A backend history turn (spec §3 Turn): role, content, optional sources. -/
structure Turn where
  role : Role
  content : String
  sources : Option (List Source) := none
deriving DecidableEq, Repr

/-- Modelled from the spec: the backend Session Store's `get_or_create`
(spec §4.6) is not among the repository sources (only the README under
`src/unnamed/part_000` documents the backend).  Per the spec, if `session_id`
is absent or unknown the store allocates a new unique id (`freshId`, drawn by
the caller's id generator) with an empty history; otherwise it returns the
existing session unchanged.  Returns (session id, history, updated store). -/
def get_or_create (store : List (String × List Turn)) (sid : Option String)
    (freshId : String) : String × List Turn × List (String × List Turn) :=
  match sid with
  | some s =>
    match store.lookup s with
    | some h => (s, h, store)
    | none => (freshId, [], store ++ [(freshId, [])])
  | none => (freshId, [], store ++ [(freshId, [])])

/-- Modelled from the spec: the backend Session Store's `append` (spec §4.6) is
not among the repository sources.  Per the spec it adds a turn most-recent-last
and evicts the oldest turn(s) once the history length exceeds `maxHistory`
(strict FIFO eviction; the cap counts total turns, not turn pairs). -/
def appendTurn (maxHistory : Nat) (history : List Turn) (t : Turn) : List Turn :=
  let h := history ++ [t]
  if maxHistory < h.length then h.drop (h.length - maxHistory) else h

/-- The user turn `sendMessage` appends for a non-blank input. -/
def userMsgOf (content uidU : String) (tsU : Nat) : Message :=
  { id := uidU, role := .user, content := jsTrim content, timestamp := tsU }

/-- The assistant turn `sendMessage` appends: the parsed answer on success, the
warning-prefixed error text on either failure path. -/
def assistantMsgOf (uidA : String) (tsA : Nat) : FetchOutcome → Message
  | .success data =>
    { id := uidA, role := .assistant, content := data.answer,
      sources := some data.sources, timestamp := tsA }
  | outcome =>
    { id := uidA, role := .assistant,
      content := "⚠️ " ++ errorMessageOf outcome
        ++ ". Make sure the backend is running at " ++ API_URL,
      timestamp := tsA }

/-- The shape the spec prescribes for the `session_id` field of an inbound
request: absent, or present with a string value.  (Stated from the spec's
words, for comparison with what `buildRequestBody` actually produces.) -/
def sessionIdAbsentOrString (body : List (String × Json)) : Bool :=
  match body.lookup "session_id" with
  | none => true
  | some (Json.str _) => true
  | some _ => false

/-- Normal form of `sendMessage` on a non-blank input: it posts the request
body built from the pre-call session id and appends exactly the user turn and
one assistant turn; on success it stores the returned session id, on failure it
stores the error text and leaves the session id alone. -/
theorem sendMessage_eq (st : ChatState) (content uidU uidA : String)
    (tsU tsA : Nat) (outcome : FetchOutcome) (topK : Nat)
    (h : jsTrim content ≠ "") :
    sendMessage st content uidU uidA tsU tsA outcome topK =
      ({ messages := st.messages
            ++ [userMsgOf content uidU tsU, assistantMsgOf uidA tsA outcome],
         isLoading := false,
         sessionId := match outcome with
           | .success data => some data.session_id
           | _ => st.sessionId,
         error := match outcome with
           | .success _ => none
           | _ => some (errorMessageOf outcome) },
       some (buildRequestBody st.sessionId (jsTrim content) topK)) := by
  cases outcome <;> simp [sendMessage, h, userMsgOf, assistantMsgOf, errorMessageOf]

theorem assistantMsgOf_role (uidA : String) (tsA : Nat) (outcome : FetchOutcome) :
    (assistantMsgOf uidA tsA outcome).role = .assistant := by
  cases outcome <;> rfl

end RagChat

namespace RagChat

/-- C9: for a whitespace-only (or empty) input, `sendMessage` is a no-op — no
request is posted and the state is unchanged; for a non-blank input, the
appended user turn and the posted `message` field both carry the trimmed
input. -/
theorem sendMessage_blank_input_noop_and_trims
    (st : ChatState) (content uidU uidA : String) (tsU tsA : Nat)
    (outcome : FetchOutcome) (topK : Nat) :
    (jsTrim content = "" →
      sendMessage st content uidU uidA tsU tsA outcome topK = (st, none))
    ∧ (jsTrim content ≠ "" →
        (sendMessage st content uidU uidA tsU tsA outcome topK).1.messages
            = st.messages ++ [userMsgOf content uidU tsU, assistantMsgOf uidA tsA outcome]
          ∧ (userMsgOf content uidU tsU).content = jsTrim content
          ∧ (userMsgOf content uidU tsU).role = .user
          ∧ ((sendMessage st content uidU uidA tsU tsA outcome topK).2.map
              (fun b => b.lookup "message")) = some (some (Json.str (jsTrim content)))) := by
  constructor
  · intro h
    simp [sendMessage, h]
  · intro h
    rw [sendMessage_eq st content uidU uidA tsU tsA outcome topK h]
    refine ⟨rfl, rfl, rfl, ?_⟩
    simp [buildRequestBody, List.lookup]

/-- Witness for C9: both branches at concrete inputs — `"   "` is a no-op,
`"  hi  "` appends and sends the trimmed `"hi"`. -/
theorem sendMessage_blank_input_noop_and_trims_witness :
    sendMessage initialChatState "   " "u-1" "a-1" 0 1 (.httpError 500) 5
      = (initialChatState, none)
    ∧ ((sendMessage initialChatState "  hi  " "u-1" "a-1" 0 1 (.httpError 500) 5).2.map
        (fun b => b.lookup "message")) = some (some (Json.str "hi")) :=
  ⟨(sendMessage_blank_input_noop_and_trims initialChatState "   " "u-1" "a-1" 0 1
      (.httpError 500) 5).1 (by decide),
   by
    have h := ((sendMessage_blank_input_noop_and_trims initialChatState "  hi  " "u-1" "a-1"
      0 1 (.httpError 500) 5).2 (by decide)).2.2.2
    simpa using h⟩

/-- C10: on a failed call the stored session id is unchanged (it is only
updated from a successfully parsed response), and the call always ends with
`isLoading` reset to `false`. -/
theorem sendMessage_failure_preserves_sessionId_clears_loading
    (st : ChatState) (content uidU uidA : String) (tsU tsA : Nat)
    (outcome : FetchOutcome) (topK : Nat) (h : jsTrim content ≠ "") :
    (sendMessage st content uidU uidA tsU tsA outcome topK).1.isLoading = false
    ∧ (outcome.isFailure = true →
        (sendMessage st content uidU uidA tsU tsA outcome topK).1.sessionId
          = st.sessionId) := by
  cases outcome <;> simp [sendMessage, h, FetchOutcome.isFailure]

/-- Witness for C10 at a concrete failed call. -/
theorem sendMessage_failure_preserves_sessionId_clears_loading_witness :
    (sendMessage { initialChatState with sessionId := some "sess-1" } "hi" "u-1" "a-1"
        0 1 (.networkError none) 5).1.isLoading = false
    ∧ ((FetchOutcome.networkError none).isFailure = true →
        (sendMessage { initialChatState with sessionId := some "sess-1" } "hi" "u-1" "a-1"
            0 1 (.networkError none) 5).1.sessionId
          = ({ initialChatState with sessionId := some "sess-1" } : ChatState).sessionId) :=
  sendMessage_failure_preserves_sessionId_clears_loading
    { initialChatState with sessionId := some "sess-1" } "hi" "u-1" "a-1" 0 1
    (.networkError none) 5 (by decide)

/-- C6: a completed non-blank `sendMessage` call appends exactly one user turn
followed by one assistant turn at the end of the list, leaving every
previously appended turn in place unchanged. -/
theorem sendMessage_appends_user_then_assistant_only
    (st : ChatState) (content uidU uidA : String) (tsU tsA : Nat)
    (outcome : FetchOutcome) (topK : Nat) (h : jsTrim content ≠ "") :
    (sendMessage st content uidU uidA tsU tsA outcome topK).1.messages
      = st.messages ++ [userMsgOf content uidU tsU, assistantMsgOf uidA tsA outcome]
    ∧ (userMsgOf content uidU tsU).role = .user
    ∧ (assistantMsgOf uidA tsA outcome).role = .assistant
    ∧ (sendMessage st content uidU uidA tsU tsA outcome topK).1.messages.take
        st.messages.length = st.messages := by
  rw [sendMessage_eq st content uidU uidA tsU tsA outcome topK h]
  exact ⟨rfl, rfl, assistantMsgOf_role uidA tsA outcome, by simp⟩

/-- Witness for C6 on a concrete two-turn state. -/
theorem sendMessage_appends_user_then_assistant_only_witness :
    (sendMessage initialChatState "hi" "u-1" "a-1" 0 1
        (.success ⟨"sess-1", "the answer", []⟩) 5).1.messages
      = initialChatState.messages
        ++ [userMsgOf "hi" "u-1" 0, assistantMsgOf "a-1" 1 (.success ⟨"sess-1", "the answer", []⟩)]
    ∧ (userMsgOf "hi" "u-1" 0).role = .user
    ∧ (assistantMsgOf "a-1" 1 (.success ⟨"sess-1", "the answer", []⟩)).role = .assistant
    ∧ (sendMessage initialChatState "hi" "u-1" "a-1" 0 1
        (.success ⟨"sess-1", "the answer", []⟩) 5).1.messages.take
          initialChatState.messages.length = initialChatState.messages :=
  sendMessage_appends_user_then_assistant_only initialChatState "hi" "u-1" "a-1" 0 1
    (.success ⟨"sess-1", "the answer", []⟩) 5 (by decide)

/-- C2: on every failed call (rejected fetch or non-ok status) the user still
gets an assistant turn appended whose content is the warning-prefixed error
text and is never the empty string; since the embedded `sendMessage` is a
total function, the exception never escapes to the caller. -/
theorem sendMessage_failure_appends_nonempty_warning
    (st : ChatState) (content uidU uidA : String) (tsU tsA : Nat)
    (outcome : FetchOutcome) (topK : Nat) (h : jsTrim content ≠ "")
    (hfail : outcome.isFailure = true) :
    (sendMessage st content uidU uidA tsU tsA outcome topK).1.messages
      = st.messages ++ [userMsgOf content uidU tsU, assistantMsgOf uidA tsA outcome]
    ∧ (assistantMsgOf uidA tsA outcome).role = .assistant
    ∧ (assistantMsgOf uidA tsA outcome).content
        = "⚠️ " ++ errorMessageOf outcome
          ++ ". Make sure the backend is running at " ++ API_URL
    ∧ (assistantMsgOf uidA tsA outcome).content ≠ "" := by
  refine ⟨by rw [sendMessage_eq st content uidU uidA tsU tsA outcome topK h],
    assistantMsgOf_role uidA tsA outcome, ?_, ?_⟩
  · cases outcome with
    | success resp => simp [FetchOutcome.isFailure] at hfail
    | httpError status => rfl
    | networkError m => rfl
  · cases outcome with
    | success resp => simp [FetchOutcome.isFailure] at hfail
    | httpError status => simp [assistantMsgOf, String.ext_iff]
    | networkError m => simp [assistantMsgOf, String.ext_iff]

/-- Witness for C2 at a concrete HTTP 500 failure. -/
theorem sendMessage_failure_appends_nonempty_warning_witness :
    (sendMessage initialChatState "hi" "u-1" "a-1" 0 1 (.httpError 500) 5).1.messages
      = initialChatState.messages
        ++ [userMsgOf "hi" "u-1" 0, assistantMsgOf "a-1" 1 (.httpError 500)]
    ∧ (assistantMsgOf "a-1" 1 (.httpError 500)).role = .assistant
    ∧ (assistantMsgOf "a-1" 1 (.httpError 500)).content
        = "⚠️ " ++ errorMessageOf (.httpError 500)
          ++ ". Make sure the backend is running at " ++ API_URL
    ∧ (assistantMsgOf "a-1" 1 (.httpError 500)).content ≠ "" :=
  sendMessage_failure_appends_nonempty_warning initialChatState "hi" "u-1" "a-1" 0 1
    (.httpError 500) 5 (by decide) (by decide)

/-- C4: when the caller omits `top_k`, the posted request carries the hook's
parameter default, which equals the configured default `TOP_K = 5`. -/
theorem sendMessage_default_top_k_is_five
    (st : ChatState) (content uidU uidA : String) (tsU tsA : Nat)
    (outcome : FetchOutcome) (h : jsTrim content ≠ "") :
    ((sendMessage st content uidU uidA tsU tsA outcome).2.map
        (fun b => b.lookup "top_k")) = some (some (Json.num TOP_K))
    ∧ TOP_K = 5 := by
  rw [sendMessage_eq st content uidU uidA tsU tsA outcome 5 h]
  exact ⟨by simp [buildRequestBody, List.lookup, TOP_K], rfl⟩

/-- Witness for C4 at a concrete call with `top_k` omitted. -/
theorem sendMessage_default_top_k_is_five_witness :
    ((sendMessage initialChatState "hi" "u-1" "a-1" 0 1 (.httpError 500)).2.map
        (fun b => b.lookup "top_k")) = some (some (Json.num TOP_K))
    ∧ TOP_K = 5 :=
  sendMessage_default_top_k_is_five initialChatState "hi" "u-1" "a-1" 0 1
    (.httpError 500) (by decide)

/-- C3 counterexample: the very first request (no session yet) is sent with
`"session_id": null` — the field is present with a non-string JSON value, so
the claim that `session_id` is always absent or a string fails. -/
theorem sendMessage_first_request_session_id_is_json_null :
    (sendMessage initialChatState "hi" "u-1" "a-1" 0 1 (.httpError 500)).2
      = some [("session_id", Json.null), ("message", Json.str "hi"),
              ("top_k", Json.num 5)]
    ∧ ¬ sessionIdAbsentOrString
        [("session_id", Json.null), ("message", Json.str "hi"),
         ("top_k", Json.num 5)] = true := by
  decide

/-- C3 amended: every posted request has exactly the fields `session_id`,
`message`, `top_k`; `message` is the trimmed input string, `top_k` the integer
passed (or defaulted), and `session_id` is the stored session id string, or
JSON `null` when the client has no session yet — the field is always present. -/
theorem sendMessage_request_body_shape
    (st : ChatState) (content uidU uidA : String) (tsU tsA : Nat)
    (outcome : FetchOutcome) (topK : Nat) (h : jsTrim content ≠ "") :
    (sendMessage st content uidU uidA tsU tsA outcome topK).2
      = some [("session_id", jsonOfOptStr st.sessionId),
              ("message", Json.str (jsTrim content)),
              ("top_k", Json.num topK)]
    ∧ (∀ s : String, st.sessionId = some s → jsonOfOptStr st.sessionId = Json.str s)
    ∧ (st.sessionId = none → jsonOfOptStr st.sessionId = Json.null) := by
  refine ⟨by rw [sendMessage_eq st content uidU uidA tsU tsA outcome topK h]; rfl, ?_, ?_⟩
  · intro s hs
    rw [hs]
    rfl
  · intro hn
    rw [hn]
    rfl

/-- Witness for the amended C3 at a concrete call with a stored session. -/
theorem sendMessage_request_body_shape_witness :
    (sendMessage { initialChatState with sessionId := some "sess-1" } " hi " "u-1" "a-1"
        0 1 (.httpError 500) 7).2
      = some [("session_id", jsonOfOptStr (some "sess-1")),
              ("message", Json.str (jsTrim " hi ")),
              ("top_k", Json.num 7)]
    ∧ (∀ s : String,
        ({ initialChatState with sessionId := some "sess-1" } : ChatState).sessionId = some s →
          jsonOfOptStr ({ initialChatState with sessionId := some "sess-1" } : ChatState).sessionId
            = Json.str s)
    ∧ (({ initialChatState with sessionId := some "sess-1" } : ChatState).sessionId = none →
        jsonOfOptStr ({ initialChatState with sessionId := some "sess-1" } : ChatState).sessionId
          = Json.null) :=
  sendMessage_request_body_shape { initialChatState with sessionId := some "sess-1" }
    " hi " "u-1" "a-1" 0 1 (.httpError 500) 7 (by decide)

end RagChat

namespace RagChat

/-- C5: a successful response is consumed exactly by its shape — the client
stores `session_id`, appends an assistant turn carrying `answer` and
`sources` — and the citation list renders one badge per source, in the given
order, each showing the file (first `.csv` stripped) and the row index. -/
theorem sendMessage_success_consumes_response_renders_sources
    (st : ChatState) (content uidU uidA : String) (tsU tsA : Nat)
    (resp : ChatResponse) (topK : Nat) (h : jsTrim content ≠ "") :
    (sendMessage st content uidU uidA tsU tsA (.success resp) topK).1.sessionId
      = some resp.session_id
    ∧ (sendMessage st content uidU uidA tsU tsA (.success resp) topK).1.messages
        = st.messages ++ [userMsgOf content uidU tsU,
            { id := uidA, role := .assistant, content := resp.answer,
              sources := some resp.sources, timestamp := tsA }]
    ∧ (renderSources resp.sources).length = resp.sources.length
    ∧ ∀ i : Nat, (renderSources resp.sources)[i]?
        = (resp.sources[i]?).map (fun s => (stripCsvOnce s.file, s.row_index)) := by
  rw [sendMessage_eq st content uidU uidA tsU tsA (.success resp) topK h]
  refine ⟨rfl, rfl, by simp [renderSources], ?_⟩
  intro i
  simp only [renderSources, List.getElem?_map]
  cases resp.sources[i]? <;> rfl

/-- Witness for C5 at a concrete response with two sources. -/
theorem sendMessage_success_consumes_response_renders_sources_witness :
    (sendMessage initialChatState "hi" "u-1" "a-1" 0 1
        (.success ⟨"sess-1", "the answer",
          [⟨"holdings.csv", 2⟩, ⟨"trades.csv", 0⟩]⟩) 5).1.sessionId
      = some (ChatResponse.session_id ⟨"sess-1", "the answer",
          [⟨"holdings.csv", 2⟩, ⟨"trades.csv", 0⟩]⟩)
    ∧ (sendMessage initialChatState "hi" "u-1" "a-1" 0 1
        (.success ⟨"sess-1", "the answer",
          [⟨"holdings.csv", 2⟩, ⟨"trades.csv", 0⟩]⟩) 5).1.messages
        = initialChatState.messages ++ [userMsgOf "hi" "u-1" 0,
            { id := "a-1", role := .assistant,
              content := ChatResponse.answer ⟨"sess-1", "the answer",
                [⟨"holdings.csv", 2⟩, ⟨"trades.csv", 0⟩]⟩,
              sources := some (ChatResponse.sources ⟨"sess-1", "the answer",
                [⟨"holdings.csv", 2⟩, ⟨"trades.csv", 0⟩]⟩),
              timestamp := 1 }]
    ∧ (renderSources (ChatResponse.sources ⟨"sess-1", "the answer",
        [⟨"holdings.csv", 2⟩, ⟨"trades.csv", 0⟩]⟩)).length
        = (ChatResponse.sources ⟨"sess-1", "the answer",
            [⟨"holdings.csv", 2⟩, ⟨"trades.csv", 0⟩]⟩).length
    ∧ ∀ i : Nat, (renderSources (ChatResponse.sources ⟨"sess-1", "the answer",
        [⟨"holdings.csv", 2⟩, ⟨"trades.csv", 0⟩]⟩))[i]?
        = ((ChatResponse.sources ⟨"sess-1", "the answer",
            [⟨"holdings.csv", 2⟩, ⟨"trades.csv", 0⟩]⟩)[i]?).map
              (fun s => (stripCsvOnce s.file, s.row_index)) :=
  sendMessage_success_consumes_response_renders_sources initialChatState "hi" "u-1" "a-1"
    0 1 ⟨"sess-1", "the answer", [⟨"holdings.csv", 2⟩, ⟨"trades.csv", 0⟩]⟩ 5 (by decide)

/-- C7 (spec-modelled backend): once the history holds `MAX_HISTORY` turns,
appending evicts the oldest turn in strict FIFO order, the length stays at
`MAX_HISTORY` (which is 10), and the length never exceeds the cap; the cap
counts individual turns. -/
theorem appendTurn_fifo_eviction_at_cap (history : List Turn) (t : Turn)
    (hfull : history.length = MAX_HISTORY) :
    appendTurn MAX_HISTORY history t = history.drop 1 ++ [t]
    ∧ (appendTurn MAX_HISTORY history t).length = MAX_HISTORY
    ∧ MAX_HISTORY = 10
    ∧ ∀ h2 : List Turn, h2.length ≤ MAX_HISTORY →
        (appendTurn MAX_HISTORY h2 t).length ≤ MAX_HISTORY := by
  have hlt : MAX_HISTORY < (history ++ [t]).length := by
    simp [hfull]
  have hdrop : (history ++ [t]).length - MAX_HISTORY = 1 := by
    simp [hfull]
  have key : appendTurn MAX_HISTORY history t = history.drop 1 ++ [t] := by
    unfold appendTurn
    rw [if_pos hlt, hdrop]
    exact List.drop_append_of_le_length (by rw [hfull]; decide)
  refine ⟨key, ?_, rfl, ?_⟩
  · rw [key]
    simp [hfull]
    decide
  · intro h2 hle
    unfold appendTurn
    by_cases hc : MAX_HISTORY < (h2 ++ [t]).length
    · rw [if_pos hc, List.length_drop]
      omega
    · rw [if_neg hc]
      omega

/-- Witness for C7 on a concrete full history of 10 turns. -/
theorem appendTurn_fifo_eviction_at_cap_witness :
    appendTurn MAX_HISTORY (List.replicate 10 ⟨Role.user, "m", none⟩)
        ⟨Role.assistant, "new", none⟩
      = (List.replicate 10 (⟨Role.user, "m", none⟩ : Turn)).drop 1
          ++ [⟨Role.assistant, "new", none⟩]
    ∧ (appendTurn MAX_HISTORY (List.replicate 10 ⟨Role.user, "m", none⟩)
        ⟨Role.assistant, "new", none⟩).length = MAX_HISTORY
    ∧ MAX_HISTORY = 10
    ∧ ∀ h2 : List Turn, h2.length ≤ MAX_HISTORY →
        (appendTurn MAX_HISTORY h2 ⟨Role.assistant, "new", none⟩).length ≤ MAX_HISTORY :=
  appendTurn_fifo_eviction_at_cap (List.replicate 10 ⟨Role.user, "m", none⟩)
    ⟨Role.assistant, "new", none⟩ (by decide)

/-- C8: `clearChat` empties the message list and nulls both the session id and
the error; the next `sendMessage` therefore posts `session_id: null`, on which
the modelled backend store allocates a brand-new session. -/
theorem clearChat_resets_session_state
    (st : ChatState) (c uidU uidA : String) (tsU tsA : Nat)
    (outcome : FetchOutcome) (topK : Nat) (store : List (String × List Turn))
    (fresh : String) (hc : jsTrim c ≠ "") :
    (clearChat st).messages = []
    ∧ (clearChat st).sessionId = none
    ∧ (clearChat st).error = none
    ∧ (sendMessage (clearChat st) c uidU uidA tsU tsA outcome topK).2
        = some (buildRequestBody none (jsTrim c) topK)
    ∧ (buildRequestBody none (jsTrim c) topK).lookup "session_id" = some Json.null
    ∧ get_or_create store none fresh = (fresh, [], store ++ [(fresh, [])]) := by
  refine ⟨rfl, rfl, rfl, ?_, ?_, rfl⟩
  · rw [sendMessage_eq (clearChat st) c uidU uidA tsU tsA outcome topK hc]
    rfl
  · simp [buildRequestBody, List.lookup, jsonOfOptStr]

/-- Witness for C8 on a concrete populated state. -/
theorem clearChat_resets_session_state_witness :
    (clearChat (⟨[userMsgOf "old" "u-0" 0], false, some "sess-0", some "boom"⟩ : ChatState)).messages = []
    ∧ (clearChat (⟨[userMsgOf "old" "u-0" 0], false, some "sess-0", some "boom"⟩ : ChatState)).sessionId = none
    ∧ (clearChat (⟨[userMsgOf "old" "u-0" 0], false, some "sess-0", some "boom"⟩ : ChatState)).error = none
    ∧ (sendMessage (clearChat (⟨[userMsgOf "old" "u-0" 0], false, some "sess-0", some "boom"⟩ : ChatState)) "hi" "u-1" "a-1" 0 1
          (.httpError 500) 5).2
        = some (buildRequestBody none (jsTrim "hi") 5)
    ∧ (buildRequestBody none (jsTrim "hi") 5).lookup "session_id" = some Json.null
    ∧ get_or_create [] none "sess-1" = ("sess-1", [], [] ++ [("sess-1", [])]) :=
  clearChat_resets_session_state
    (⟨[userMsgOf "old" "u-0" 0], false, some "sess-0", some "boom"⟩ : ChatState)
    "hi" "u-1" "a-1" 0 1 (.httpError 500) 5 [] "sess-1" (by decide)

/-- C1: a first exchange with no stored session posts `session_id: null`; the
modelled backend allocates a fresh non-empty id with an empty history; on
success the client stores that id, the next request carries exactly it as a
string, and the backend then resolves it to the same session instead of
creating a new one. -/
theorem sendMessage_session_id_roundtrip
    (c1 c2 uidU1 uidA1 uidU2 uidA2 : String) (tsU1 tsA1 tsU2 tsA2 : Nat)
    (resp1 : ChatResponse) (out2 : FetchOutcome) (topK1 topK2 : Nat)
    (store : List (String × List Turn)) (fresh fresh2 : String)
    (h1 : jsTrim c1 ≠ "") (h2 : jsTrim c2 ≠ "")
    (hnew : store.lookup fresh = none) (hne : fresh ≠ "")
    (hresp : resp1.session_id = fresh) :
    (sendMessage initialChatState c1 uidU1 uidA1 tsU1 tsA1 (.success resp1) topK1).2
      = some (buildRequestBody none (jsTrim c1) topK1)
    ∧ (buildRequestBody none (jsTrim c1) topK1).lookup "session_id" = some Json.null
    ∧ (get_or_create store none fresh = (fresh, [], store ++ [(fresh, [])]) ∧ fresh ≠ "")
    ∧ (sendMessage initialChatState c1 uidU1 uidA1 tsU1 tsA1
        (.success resp1) topK1).1.sessionId = some fresh
    ∧ (sendMessage (sendMessage initialChatState c1 uidU1 uidA1 tsU1 tsA1
          (.success resp1) topK1).1 c2 uidU2 uidA2 tsU2 tsA2 out2 topK2).2
        = some (buildRequestBody (some fresh) (jsTrim c2) topK2)
    ∧ (buildRequestBody (some fresh) (jsTrim c2) topK2).lookup "session_id"
        = some (Json.str fresh)
    ∧ get_or_create (store ++ [(fresh, [])]) (some fresh) fresh2
        = (fresh, [], store ++ [(fresh, [])]) := by
  have hsid : (sendMessage initialChatState c1 uidU1 uidA1 tsU1 tsA1
      (.success resp1) topK1).1.sessionId = some fresh := by
    rw [sendMessage_eq initialChatState c1 uidU1 uidA1 tsU1 tsA1 (.success resp1) topK1 h1]
    simpa using congrArg some hresp
  refine ⟨?_, by simp [buildRequestBody, List.lookup, jsonOfOptStr], ⟨rfl, hne⟩, hsid, ?_,
    by simp [buildRequestBody, List.lookup, jsonOfOptStr], ?_⟩
  · rw [sendMessage_eq initialChatState c1 uidU1 uidA1 tsU1 tsA1 (.success resp1) topK1 h1]
    rfl
  · rw [sendMessage_eq _ c2 uidU2 uidA2 tsU2 tsA2 out2 topK2 h2, hsid]
  · simp [get_or_create, List.lookup_append, hnew]

/-- Witness for C1: a concrete two-request exchange against the modelled
backend store. -/
theorem sendMessage_session_id_roundtrip_witness :
    (sendMessage initialChatState "hello" "u-1" "a-1" 0 1
        (.success ⟨"sess-1", "ans", []⟩) 5).2
      = some (buildRequestBody none (jsTrim "hello") 5)
    ∧ (buildRequestBody none (jsTrim "hello") 5).lookup "session_id" = some Json.null
    ∧ (get_or_create [] none "sess-1" = ("sess-1", [], [] ++ [("sess-1", [])])
        ∧ "sess-1" ≠ "")
    ∧ (sendMessage initialChatState "hello" "u-1" "a-1" 0 1
        (.success ⟨"sess-1", "ans", []⟩) 5).1.sessionId = some "sess-1"
    ∧ (sendMessage (sendMessage initialChatState "hello" "u-1" "a-1" 0 1
          (.success ⟨"sess-1", "ans", []⟩) 5).1 "and trades?" "u-2" "a-2" 2 3
            (.networkError none) 5).2
        = some (buildRequestBody (some "sess-1") (jsTrim "and trades?") 5)
    ∧ (buildRequestBody (some "sess-1") (jsTrim "and trades?") 5).lookup "session_id"
        = some (Json.str "sess-1")
    ∧ get_or_create ([] ++ [("sess-1", [])]) (some "sess-1") "sess-2"
        = ("sess-1", [], [] ++ [("sess-1", [])]) :=
  sendMessage_session_id_roundtrip "hello" "and trades?" "u-1" "a-1" "u-2" "a-2" 0 1 2 3
    ⟨"sess-1", "ans", []⟩ (.networkError none) 5 5 [] "sess-1" "sess-2"
    (by decide) (by decide) (by decide) (by decide) (by decide)

end RagChat
